/-
Verification of the film-recommendation-engine backend against its
natural-language specification.

The development shallowly embeds the relevant Python code:
  * backend/app/analysis/preferences.py  (PreferenceAnalyzer)
  * backend/app/tools/movie_tools.py     (MovieTools)
  * backend/app/services/claude_chat.py  (ClaudeChatService.execute_mcp_tool)
  * backend/app/api/scraping.py          (job admission control)
  * backend/app/importer/csv_importer.py (CSVImporter._process_single_row)

Modelling conventions:
  * The relational store is a record of lists of rows; SQL inner joins are
    list binds; `LIMIT n` is `List.take n`; `.first()` is `List.head?`.
  * Python floats are modelled as rationals; `round(x, 2)` is `round2`
    (ties at the half are rare and no theorem below depends on them).
  * `ORDER BY` / Python stable sort is `List.insertionSort` (stable).
  * Fallible operations return `Except String`; a caught Python exception
    is an `Except.error` carrying the handler's message.
  * Natural-language "insights" strings are presentation-only and are not
    part of any analysis record modelled here.
-/
import Mathlib

set_option maxRecDepth 100000

attribute [local semireducible] Rat.add Rat.mul Rat.sub Rat.inv

namespace FilmRec

instance exceptDecEq {ε α : Type} [DecidableEq ε] [DecidableEq α] :
    DecidableEq (Except ε α) := fun a b =>
  match a, b with
  | .error e, .error f =>
      if h : e = f then .isTrue (by rw [h])
      else .isFalse (fun hc => by cases hc; exact h rfl)
  | .error _, .ok _ => .isFalse (fun hc => by cases hc)
  | .ok _, .error _ => .isFalse (fun hc => by cases hc)
  | .ok x, .ok y =>
      if h : x = y then .isTrue (by rw [h])
      else .isFalse (fun hc => by cases hc; exact h rfl)

/-- Rounding to the nearest integer, `⌊q + 1/2⌋` computed directly on the
numerator and denominator (Python resolves exact halves to even, but no
statement below sits on an exact half). -/
def pyRound (q : ℚ) : ℤ := Int.fdiv (2 * q.num + (q.den : ℤ)) (2 * (q.den : ℤ))

/-- Python `round(x, 2)` on a rational (round to 2 decimal places). -/
def round2 (q : ℚ) : ℚ := (pyRound (q * 100) : ℚ) / 100

/-- Python `round(x, 1)` on a rational (round to 1 decimal place). -/
def round1 (q : ℚ) : ℚ := (pyRound (q * 10) : ℚ) / 10

/-- The characters of a string, lower-cased (`.lower()` / SQL `ILIKE`). -/
def lowerChars (s : String) : List Char := s.data.map Char.toLower

/-- Python `str.strip()` on the character list of a string. -/
def myTrim (s : String) : String :=
  String.mk
    (((s.data.dropWhile Char.isWhitespace).reverse.dropWhile
      Char.isWhitespace).reverse)

/-- Python `str.startswith(pre)`. -/
def myStartsWith (s pre : String) : Bool :=
  decide (List.IsPrefix pre.data s.data)

/-- Python `str.split(',')` on a character list. -/
def splitCommaChars : List Char → List (List Char)
  | [] => [[]]
  | c :: rest =>
      let r := splitCommaChars rest
      if c = ',' then [] :: r
      else (c :: r.headD []) :: r.tail

/-- Python `str.split(',')`. -/
def mySplitComma (s : String) : List String :=
  (splitCommaChars s.data).map String.mk

/-- Python `str.lower()`. -/
def myToLower (s : String) : String := String.mk (lowerChars s)

/-- `np.mean` over a list of integer ratings, as a rational. -/
def listMean (l : List ℤ) : ℚ := (l.sum : ℚ) / (l.length : ℚ)

/-- Deduplication keeping the FIRST occurrence of each element not yet
seen, in order. -/
def firstDedupAux (seen : List String) : List String → List String
  | [] => []
  | a :: l =>
      if a ∈ seen then firstDedupAux seen l
      else a :: firstDedupAux (a :: seen) l

/-- Deduplication keeping the FIRST occurrence of each element, in order.
This is the key order of a Python `dict` built by insertion. -/
def firstDedup (l : List String) : List String := firstDedupAux [] l

theorem mem_firstDedupAux {a : String} :
    ∀ {l seen : List String}, a ∈ firstDedupAux seen l ↔ a ∈ l ∧ a ∉ seen := by
  intro l
  induction l with
  | nil => intro seen; simp [firstDedupAux]
  | cons b t ih =>
      intro seen
      by_cases hb : b ∈ seen
      · rw [firstDedupAux, if_pos hb, ih]
        constructor
        · rintro ⟨hat, hns⟩; exact ⟨List.mem_cons_of_mem _ hat, hns⟩
        · rintro ⟨hat, hns⟩
          rcases List.mem_cons.1 hat with h | h
          · exact absurd (h ▸ hb) hns
          · exact ⟨h, hns⟩
      · rw [firstDedupAux, if_neg hb]
        by_cases hab : a = b
        · subst hab; simp [hb]
        · simp only [List.mem_cons, hab, false_or]
          rw [ih]
          simp [List.mem_cons, hab]

theorem mem_firstDedup {a : String} {l : List String} :
    a ∈ firstDedup l ↔ a ∈ l := by
  rw [firstDedup, mem_firstDedupAux]; simp

theorem nodup_firstDedupAux :
    ∀ (l seen : List String), (firstDedupAux seen l).Nodup := by
  intro l
  induction l with
  | nil => intro seen; simp [firstDedupAux]
  | cons b t ih =>
      intro seen
      by_cases hb : b ∈ seen
      · rw [firstDedupAux, if_pos hb]; exact ih seen
      · rw [firstDedupAux, if_neg hb]
        refine List.Nodup.cons ?_ (ih (b :: seen))
        intro hmem
        exact ((mem_firstDedupAux).1 hmem).2 (List.mem_cons_self b seen)

theorem nodup_firstDedup (l : List String) : (firstDedup l).Nodup :=
  nodup_firstDedupAux l []

/-- Case-insensitive substring test: SQL `col ILIKE '%pat%'`. -/
def containsSub (pat s : String) : Bool :=
  decide (List.IsInfix (lowerChars pat) (lowerChars s))

/-! ## The data model (database/models.py) -/

/-- A row of the `movies` table (the columns the analysed code reads). -/
structure Movie where
  id : Nat
  imdbId : String
  title : String
  year : Option ℤ := none
  runtimeMinutes : Option ℤ := none
  genres : Option (List String) := none
  director : Option String := none
  imdbRating : Option ℚ := none
  ratedAtKey : Option ℤ := none
deriving Repr, DecidableEq

/-- A row of the `user_ratings` table. -/
structure UserRating where
  movieId : Nat
  rating : ℤ
  ratedAt : Option ℤ := none
deriving Repr, DecidableEq

/-- A row of the `cast_members` table. -/
structure CastMember where
  movieId : Nat
  name : String
  role : String
  character : Option String := none
deriving Repr, DecidableEq

/-- A row of the `poster_analysis` table (content opaque to the claims). -/
structure PosterRow where
  movieId : Nat
deriving Repr, DecidableEq

/-- The relational store. -/
structure Store where
  movies : List Movie := []
  ratings : List UserRating := []
  castMembers : List CastMember := []
  posters : List PosterRow := []
deriving Repr, DecidableEq

/-- Inner join `query(Movie, UserRating).join(UserRating)`:
one row per (movie, matching rating) pair. -/
def joinedRows (s : Store) : List (Movie × UserRating) :=
  s.movies.flatMap fun m =>
    (s.ratings.filter (fun r => r.movieId = m.id)).map (fun r => (m, r))

/-- Join of movies, ratings and cast members
(`query(Movie, UserRating, CastMember)` with both joins). -/
def castJoined (s : Store) : List (Movie × UserRating × CastMember) :=
  (joinedRows s).flatMap fun p =>
    (s.castMembers.filter (fun c => c.movieId = p.1.id)).map
      (fun c => (p.1, p.2, c))

theorem mem_joinedRows {s : Store} {p : Movie × UserRating} :
    p ∈ joinedRows s ↔ p.1 ∈ s.movies ∧ p.2 ∈ s.ratings ∧ p.2.movieId = p.1.id := by
  cases p with
  | mk m r =>
    simp only [joinedRows, List.mem_flatMap, List.mem_map, List.mem_filter]
    constructor
    · rintro ⟨m', hm', r', ⟨hr', hid⟩, heq⟩
      cases heq
      exact ⟨hm', hr', by simpa using hid⟩
    · rintro ⟨hm, hr, hid⟩
      exact ⟨m, hm, r, ⟨hr, by simpa using hid⟩, rfl⟩

/-! ## MovieTools (tools/movie_tools.py)

Tool results are kept as the underlying row data; the `_format_movie_*`
helpers only project row fields into a JSON payload and are invertible on
the fields the claims talk about, so identity-level properties are stated
on the rows themselves. -/

/-- Truthiness of an optional integer argument (`if year_min:`):
`None` and `0` are falsy. -/
def truthyInt (o : Option ℤ) : Option ℤ :=
  match o with
  | some v => if v = 0 then none else some v
  | none => none

/-- Truthiness of an optional rational argument (`if imdb_rating_min:`). -/
def truthyRat (o : Option ℚ) : Option ℚ :=
  match o with
  | some v => if v = 0 then none else some v
  | none => none

/-- Truthiness of an optional genre list (`if genres:`). -/
def truthyList (o : Option (List String)) : Option (List String) :=
  match o with
  | some [] => none
  | some l => some l
  | none => none

/-- `search_movies`: case-insensitive match on title, director, or any
cast member name; inner join with `UserRating`; capped at `limit`. -/
def searchMovies (s : Store) (query : String) (limit : Nat := 10) :
    List (Movie × UserRating) :=
  let castIds := (s.castMembers.filter (fun c => containsSub query c.name)).flatMap
    (fun c => (s.movies.filter (fun m => m.id = c.movieId)).map (fun m => m.imdbId))
  ((joinedRows s).filter (fun p =>
    containsSub query p.1.title ||
    (match p.1.director with
     | some d => containsSub query d
     | none => false) ||
    (p.1.imdbId ∈ castIds : Bool))).take limit

/-- Result payload of `get_movie_details`. -/
structure MovieDetails where
  movie : Movie
  rating : UserRating
  castList : List CastMember
  posterInfo : Option PosterRow
deriving Repr, DecidableEq

/-- `get_movie_details`: IMDb-id lookup when the identifier starts with
`tt`, otherwise title substring; first match; structured error if none. -/
def getMovieDetails (s : Store) (identifier : String) :
    Except String MovieDetails :=
  let rows :=
    if myStartsWith identifier "tt" then
      (joinedRows s).filter (fun p => p.1.imdbId = identifier)
    else
      (joinedRows s).filter (fun p => containsSub identifier p.1.title)
  match rows.head? with
  | none => .error ("Movie not found: " ++ identifier)
  | some (m, r) =>
      .ok { movie := m, rating := r
            castList := s.castMembers.filter (fun c => c.movieId = m.id)
            posterInfo := s.posters.find? (fun p => p.movieId = m.id) }

/-- The joined rows matched by `get_cast_member_movies`. -/
def castMatchRows (s : Store) (name : String) (roleFilter : Option String) :
    List (Movie × UserRating × CastMember) :=
  (castJoined s).filter (fun t =>
    containsSub name t.2.2.name &&
    (match roleFilter with
     | some role => t.2.2.role = role
     | none => true))

/-- `get_cast_member_movies`: substring match on cast name, optional role
filter, grouped by the actual (distinct) matching names. -/
def getCastMemberMovies (s : Store) (name : String)
    (roleFilter : Option String := none) :
    Except String (List (String × List (Movie × UserRating × CastMember))) :=
  if castMatchRows s name roleFilter = [] then
    .error ("No movies found for cast member: " ++ name)
  else
    .ok ((firstDedup ((castMatchRows s name roleFilter).map
        (fun t => t.2.2.name))).map
      (fun n => (n, (castMatchRows s name roleFilter).filter
        (fun t => t.2.2.name = n))))

/-- Arguments of `filter_movies`, as an argument map (`none` = key absent). -/
structure FilterArgs where
  genres : Option (List String) := none
  yearMin : Option ℤ := none
  yearMax : Option ℤ := none
  userRatingMin : Option ℤ := none
  userRatingMax : Option ℤ := none
  imdbRatingMin : Option ℚ := none
  runtimeMin : Option ℤ := none
  runtimeMax : Option ℤ := none
  sortBy : Option String := none
  order : Option String := none
  limit : Option Nat := none
deriving Repr, DecidableEq

/-- `ORDER BY` comparison on optional integer columns (SQL `NULL` sorts
below every value). -/
def optIntLe (x y : Option ℤ) : Bool :=
  match x, y with
  | none, _ => true
  | some _, none => false
  | some a, some b => a ≤ b

/-- `ORDER BY` comparison on optional rational columns. -/
def optRatLe (x y : Option ℚ) : Bool :=
  match x, y with
  | none, _ => true
  | some _, none => false
  | some a, some b => a ≤ b

/-- Ascending comparison for one `sort_by` column of `filter_movies`;
an unrecognized column falls back to the user rating (MovieTools only). -/
def sortColLe (sortBy : String) (a b : Movie × UserRating) : Bool :=
  if sortBy = "rating" then a.2.rating ≤ b.2.rating
  else if sortBy = "rated_at" then optIntLe a.2.ratedAt b.2.ratedAt
  else if sortBy = "title" then a.1.title ≤ b.1.title
  else if sortBy = "year" then optIntLe a.1.year b.1.year
  else if sortBy = "imdb_rating" then optRatLe a.1.imdbRating b.1.imdbRating
  else if sortBy = "runtime_minutes" then optIntLe a.1.runtimeMinutes b.1.runtimeMinutes
  else a.2.rating ≤ b.2.rating

/-- Row comparison used for `ORDER BY`, honouring `order == "desc"`. -/
def sortRowLe (sortBy order : String) (a b : Movie × UserRating) : Bool :=
  if order = "desc" then sortColLe sortBy b a else sortColLe sortBy a b

/-- The row filters of `filter_movies` shared by both implementations
(genre OR-semantics; all numeric bounds inclusive). -/
def rowPasses (genres : Option (List String)) (yearMin yearMax : Option ℤ)
    (userMin userMax : Option ℤ) (imdbMin : Option ℚ)
    (runMin runMax : Option ℤ) (p : Movie × UserRating) : Bool :=
  (match genres with
   | some gs => gs.any (fun g => g ∈ p.1.genres.getD [])
   | none => true) &&
  (match yearMin with
   | some v => optIntLe (some v) p.1.year && p.1.year.isSome
   | none => true) &&
  (match yearMax with
   | some v => optIntLe p.1.year (some v) && p.1.year.isSome
   | none => true) &&
  (match userMin with
   | some v => v ≤ p.2.rating
   | none => true) &&
  (match userMax with
   | some v => p.2.rating ≤ v
   | none => true) &&
  (match imdbMin with
   | some v => optRatLe (some v) p.1.imdbRating && p.1.imdbRating.isSome
   | none => true) &&
  (match runMin with
   | some v => optIntLe (some v) p.1.runtimeMinutes && p.1.runtimeMinutes.isSome
   | none => true) &&
  (match runMax with
   | some v => optIntLe p.1.runtimeMinutes (some v) && p.1.runtimeMinutes.isSome
   | none => true)

/-- `MovieTools.filter_movies`: bound arguments are applied only when
truthy (Python `if year_min:`), sorting falls back to rating on an
unrecognized `sort_by`, default sort is rating descending. -/
def mtFilterMovies (s : Store) (a : FilterArgs) : List (Movie × UserRating) :=
  let sortBy := a.sortBy.getD "rating"
  let order := a.order.getD "desc"
  let limit := a.limit.getD 20
  let rows := (joinedRows s).filter
    (rowPasses (truthyList a.genres) (truthyInt a.yearMin) (truthyInt a.yearMax)
      (truthyInt a.userRatingMin) (truthyInt a.userRatingMax)
      (truthyRat a.imdbRatingMin) (truthyInt a.runtimeMin) (truthyInt a.runtimeMax))
  (rows.insertionSort (fun x y => sortRowLe sortBy order x y = true)).take limit

/-- `ClaudeChatService.execute_mcp_tool` branch for `filter_movies`:
bounds are applied on key PRESENCE (not truthiness), the runtime bounds
are not supported at all, and an unrecognized `sort_by` leaves the local
`order_column` unassigned, raising `UnboundLocalError`, which the
surrounding handler converts into a structured error payload. -/
def chatFilterMovies (s : Store) (a : FilterArgs) :
    Except String (List (Movie × UserRating)) :=
  let sortBy := a.sortBy.getD "rating"
  let order := a.order.getD "desc"
  let limit := a.limit.getD 20
  if sortBy ∈ ["rating", "rated_at", "title", "year", "imdb_rating",
      "runtime_minutes"] then
    let rows := (joinedRows s).filter
      (rowPasses (truthyList a.genres) a.yearMin a.yearMax
        a.userRatingMin a.userRatingMax a.imdbRatingMin none none)
    .ok ((rows.insertionSort (fun x y => sortRowLe sortBy order x y = true)).take limit)
  else
    .error "Error executing tool filter_movies: local variable referenced before assignment"

/-- Reference-movie resolution of `find_similar_movies` (no rating join). -/
def resolveRef (s : Store) (identifier : String) : Option Movie :=
  if myStartsWith identifier "tt" then
    s.movies.find? (fun m => m.imdbId = identifier)
  else
    s.movies.find? (fun m => containsSub identifier m.title)

/-- Genre-overlap candidate branch, capped at `limit` before the union.
Skipped when the reference has no (or an empty) genre list. -/
def genreBranch (s : Store) (ref : Movie) (limit : Nat) :
    List (Movie × UserRating) :=
  match ref.genres with
  | some gs =>
      if gs = [] then []
      else ((joinedRows s).filter (fun p =>
        p.1.id ≠ ref.id && gs.any (fun g => g ∈ p.1.genres.getD []))).take limit
  | none => []

/-- Same-director candidate branch; skipped when the reference has no
director (or an empty-string one, which is falsy in Python). -/
def directorBranch (s : Store) (ref : Movie) (limit : Nat) :
    List (Movie × UserRating) :=
  match ref.director with
  | some d =>
      if d = "" then []
      else ((joinedRows s).filter (fun p =>
        p.1.id ≠ ref.id && p.1.director = some d)).take limit
  | none => []

/-- Shared-cast candidate branch (join through `CastMember`, so one row
per shared cast member), capped at `limit`. -/
def castBranch (s : Store) (ref : Movie) (limit : Nat) :
    List (Movie × UserRating) :=
  let refCast := (s.castMembers.filter (fun c => c.movieId = ref.id)).map
    (fun c => c.name)
  (((castJoined s).filter (fun t =>
      t.1.id ≠ ref.id && t.2.2.name ∈ refCast)).map
    (fun t => (t.1, t.2.1))).take limit

/-- Candidate union of `find_similar_movies` for a `similarity_type`. -/
def similarCandidates (s : Store) (ref : Movie) (simType : String)
    (limit : Nat) : List (Movie × UserRating) :=
  (if simType = "genre" || simType = "all" then genreBranch s ref limit else []) ++
  (if simType = "director" || simType = "all" then directorBranch s ref limit else []) ++
  (if simType = "cast" || simType = "all" then castBranch s ref limit else [])

/-- The de-duplication loop of `find_similar_movies`: keep the first
occurrence of each movie id and stop as soon as `limit` entries are kept. -/
def dedupTake (limit : Nat) : List Nat → List (Movie × UserRating) →
    List (Movie × UserRating)
  | _, [] => []
  | seen, p :: rest =>
      if p.1.id ∈ seen then dedupTake limit seen rest
      else if limit ≤ 1 then [p]
      else p :: dedupTake (limit - 1) (p.1.id :: seen) rest

/-- Result payload of `MovieTools.find_similar_movies`. -/
structure SimilarResult where
  similar : List (Movie × UserRating)
  referenceTitle : String
  similarityType : String
  count : Nat
deriving Repr, DecidableEq

/-- `MovieTools.find_similar_movies`. -/
def mtFindSimilarMovies (s : Store) (movieIdentifier : String)
    (simType : String := "all") (limit : Nat := 10) :
    Except String SimilarResult :=
  match resolveRef s movieIdentifier with
  | none => .error ("Reference movie not found: " ++ movieIdentifier)
  | some ref =>
      let unique := dedupTake limit [] (similarCandidates s ref simType limit)
      .ok { similar := unique, referenceTitle := ref.title
            similarityType := simType, count := unique.length }

/-- `execute_mcp_tool` branch for `find_similar_movies`: only the
genre-overlap branch exists, whatever the `similarity_type`; the payload
also omits the `similarity_type` and `count` fields. -/
def chatFindSimilarMovies (s : Store) (movieIdentifier : String)
    (simType : String := "all") (limit : Nat := 10) :
    Except String (List (Movie × UserRating) × String) :=
  match resolveRef s movieIdentifier with
  | none => .error ("Reference movie not found: " ++ movieIdentifier)
  | some ref =>
      let cands :=
        if simType = "genre" || simType = "all" then genreBranch s ref limit
        else []
      .ok (dedupTake limit [] cands, ref.title)

theorem dedupTake_length_le (limit : Nat) :
    ∀ (seen : List Nat) (l : List (Movie × UserRating)),
      1 ≤ limit → (dedupTake limit seen l).length ≤ limit := by
  induction limit using Nat.strong_induction_on with
  | _ limit ih =>
    intro seen l hlim
    induction l generalizing seen with
    | nil => simp [dedupTake]
    | cons p rest ihl =>
      rw [dedupTake]
      by_cases hmem : p.1.id ∈ seen
      · simpa [hmem] using ihl seen
      · by_cases h1 : limit ≤ 1
        · simp only [if_neg hmem, if_pos h1, List.length_singleton]
          exact hlim
        · have hlt : limit - 1 < limit := by omega
          have := ih (limit - 1) hlt (p.1.id :: seen) rest (by omega)
          simp only [if_neg hmem, if_neg h1, List.length_cons]
          omega

theorem dedupTake_sublist (limit : Nat) :
    ∀ (seen : List Nat) (l : List (Movie × UserRating)),
      (dedupTake limit seen l).Sublist l := by
  induction limit using Nat.strong_induction_on with
  | _ limit ih =>
    intro seen l
    induction l generalizing seen limit with
    | nil => simp [dedupTake]
    | cons p rest ihl =>
      rw [dedupTake]
      by_cases hmem : p.1.id ∈ seen
      · simp only [if_pos hmem]
        exact (ihl limit ih seen).cons p
      · by_cases h1 : limit ≤ 1
        · simp only [if_neg hmem, if_pos h1]
          simp
        · simp only [if_neg hmem, if_neg h1]
          exact (ihl (limit - 1) (fun m hm => ih m (by omega)) (p.1.id :: seen)).cons₂ p

theorem mem_of_mem_dedupTake {limit : Nat} {seen : List Nat}
    {l : List (Movie × UserRating)} {p : Movie × UserRating}
    (h : p ∈ dedupTake limit seen l) : p ∈ l :=
  (dedupTake_sublist limit seen l).mem h

theorem dedupTake_nodup_ids (limit : Nat) :
    ∀ (seen : List Nat) (l : List (Movie × UserRating)),
      ((dedupTake limit seen l).map (fun p => p.1.id)).Nodup ∧
      ∀ q ∈ dedupTake limit seen l, q.1.id ∉ seen := by
  induction limit using Nat.strong_induction_on with
  | _ limit ih =>
    intro seen l
    induction l generalizing seen limit with
    | nil => simp [dedupTake]
    | cons p rest ihl =>
      rw [dedupTake]
      by_cases hmem : p.1.id ∈ seen
      · simpa [if_pos hmem] using ihl limit ih seen
      · by_cases h1 : limit ≤ 1
        · simp only [if_neg hmem, if_pos h1]
          constructor
          · simp
          · intro q hq
            simp only [List.mem_singleton] at hq
            subst hq; exact hmem
        · simp only [if_neg hmem, if_neg h1]
          obtain ⟨hnd, hout⟩ := ihl (limit - 1) (fun m hm => ih m (by omega))
            (p.1.id :: seen)
          constructor
          · refine List.Nodup.cons ?_ hnd
            intro hcon
            obtain ⟨q, hq, hqe⟩ := List.mem_map.1 hcon
            exact (hout q hq) (by simp [hqe])
          · intro q hq
            rcases List.mem_cons.1 hq with h | h
            · subst h; exact hmem
            · intro hcon
              exact (hout q h) (List.mem_cons_of_mem _ hcon)

/-! ## PreferenceAnalyzer (analysis/preferences.py) -/

/-- The fixed runtime buckets of `analyze_runtime`, in source order.
Note the upper bound `999` on the "Epic" bucket. -/
def runtimeCategories : List (String × ℤ × ℤ) :=
  [("Short (< 90 min)", 0, 89),
   ("Standard (90-119 min)", 90, 119),
   ("Long (120-149 min)", 120, 149),
   ("Epic (150+ min)", 150, 999)]

/-- All buckets whose inclusive bounds contain `r`. -/
def matchingBuckets (r : ℤ) : List (String × ℤ × ℤ) :=
  runtimeCategories.filter (fun c => decide (c.2.1 ≤ r) && decide (r ≤ c.2.2))

/-- The bucket a runtime is assigned to: the FIRST match (the loop breaks
after the first matching category); `none` if no bucket matches. -/
def bucketOf (r : ℤ) : Option String :=
  (runtimeCategories.find? (fun c => decide (c.2.1 ≤ r) && decide (r ≤ c.2.2))).map
    (fun c => c.1)

/-- One entry of the runtime distribution. -/
structure RuntimeData where
  runtimeRange : String
  count : Nat
  averageRating : ℚ
  percentage : ℚ
deriving Repr, DecidableEq

/-- Result of `analyze_runtime` (insight strings not modelled). -/
structure RuntimeAnalysis where
  runtimeDistribution : List RuntimeData
  preferredLength : String
  averageRuntime : ℚ
deriving Repr, DecidableEq

/-- The joined rows `analyze_runtime` iterates over. -/
def runtimeRows (s : Store) : List (Movie × UserRating) :=
  (joinedRows s).filter (fun p => p.1.runtimeMinutes.isSome)

/-- Ratings of the rows that fall into bucket `cat` (first-match win). -/
def bucketRatings (rows : List (Movie × UserRating)) (cat : String) : List ℤ :=
  (rows.filter (fun p => bucketOf (p.1.runtimeMinutes.getD 0) = some cat)).map
    (fun p => p.2.rating)

/-- The recompute path of `analyze_runtime` on a non-empty row set:
per-bucket count/mean/percentage, zero-count buckets omitted, sorted by
mean rating descending, preferred length = best bucket. -/
def computeRuntime (rows : List (Movie × UserRating)) : RuntimeAnalysis :=
  let total := rows.length
  let rdata := runtimeCategories.filterMap (fun c =>
    let rs := bucketRatings rows c.1
    if rs.length ≠ 0 then
      some { runtimeRange := c.1, count := rs.length
             averageRating := round2 (listMean rs)
             percentage := round2 ((rs.length : ℚ) / (total : ℚ) * 100) }
    else none)
  let sorted := List.insertionSort
    (fun a b : RuntimeData => b.averageRating ≤ a.averageRating) rdata
  { runtimeDistribution := sorted
    preferredLength := ((sorted.head?).map (fun d => d.runtimeRange)).getD "Unknown"
    averageRuntime :=
      round1 (listMean (rows.filterMap (fun p => p.1.runtimeMinutes))) }

/-- `analyze_runtime` without the cache-lookup wrapper: the empty join
short-circuits to the fixed empty analysis. -/
def analyzeRuntimeFresh (s : Store) : RuntimeAnalysis :=
  let rows := runtimeRows s
  if rows = [] then
    { runtimeDistribution := [], preferredLength := "Unknown", averageRuntime := 0 }
  else computeRuntime rows

/-- One entry of the genre statistics. -/
structure GenreData where
  genre : String
  count : Nat
  averageRating : ℚ
  percentage : ℚ
deriving Repr, DecidableEq

/-- Result of `analyze_genres` (insight strings not modelled). -/
structure GenreAnalysis where
  favoriteGenres : List GenreData
  leastFavoriteGenres : List GenreData
  genreDistribution : List (String × Nat)
deriving Repr, DecidableEq

/-- The joined rows `analyze_genres` iterates over
(`Movie.genres.isnot(None)`). -/
def genreRows (s : Store) : List (Movie × UserRating) :=
  (joinedRows s).filter (fun p => p.1.genres.isSome)

/-- The flattened genre occurrence list (one entry per genre per movie). -/
def allGenresOf (rows : List (Movie × UserRating)) : List String :=
  rows.flatMap (fun p => p.1.genres.getD [])

/-- The ratings credited to genre `g`: each row contributes its rating
once per occurrence of `g` in the movie's genre list. -/
def genreRatings (rows : List (Movie × UserRating)) (g : String) : List ℤ :=
  rows.flatMap (fun p =>
    ((p.1.genres.getD []).filter (fun x => x = g)).map (fun _ => p.2.rating))

/-- The exact (pre-rounding) percentage of genre `g`:
occurrences of `g` divided by the number of joined rows, times 100. -/
def exactGenrePct (rows : List (Movie × UserRating)) (g : String) : ℚ :=
  ((allGenresOf rows).count g : ℚ) / (rows.length : ℚ) * 100

/-- The per-genre statistics list of `analyze_genres`, one entry per
distinct genre in first-occurrence order. -/
def genreDataOf (rows : List (Movie × UserRating)) : List GenreData :=
  (firstDedup (allGenresOf rows)).map (fun g =>
    { genre := g, count := (allGenresOf rows).count g
      averageRating := round2 (listMean (genreRatings rows g))
      percentage := round2 (exactGenrePct rows g) })

/-- The recompute path of `analyze_genres` on a non-empty row set. -/
def computeGenres (rows : List (Movie × UserRating)) : GenreAnalysis :=
  let sorted := List.insertionSort
    (fun a b : GenreData => b.averageRating ≤ a.averageRating) (genreDataOf rows)
  { favoriteGenres := sorted.take 5
    leastFavoriteGenres := (sorted.drop (sorted.length - 5)).reverse
    genreDistribution :=
      (firstDedup (allGenresOf rows)).map
        (fun g => (g, (allGenresOf rows).count g)) }

/-- The fixed result `analyze_genres` returns on an empty join. -/
def emptyGenreAnalysis : GenreAnalysis :=
  { favoriteGenres := [], leastFavoriteGenres := [], genreDistribution := [] }

/-- The `UserPreferences` cache: rows keyed by `analysis_type`
(payload shown for the genres kind; serialization is lossless). -/
abbrev Cache := List (String × GenreAnalysis)

/-- Cache lookup: the first row with the given `analysis_type`. -/
def lookupCache (c : Cache) (kind : String) : Option GenreAnalysis :=
  ((c.find? (fun p => p.1 = kind))).map (fun p => p.2)

/-- `_save_analysis`: update the first row with this `analysis_type` in
place, or append a new row. -/
def upsertCache (kind : String) (v : GenreAnalysis) : Cache → Cache
  | [] => [(kind, v)]
  | p :: rest =>
      if p.1 = kind then (kind, v) :: rest else p :: upsertCache kind v rest

/-- `analyze_genres(force_regenerate)` as a state transformer over the
cache: cache hit returns the stored payload unchanged; a recompute on a
NON-empty join is persisted by upsert; an empty join returns the fixed
empty analysis WITHOUT touching the cache (the early return in the
source skips `_save_analysis`). -/
def analyzeGenres (force : Bool) (s : Store) (c : Cache) :
    GenreAnalysis × Cache :=
  match (if force then none else lookupCache c "genres") with
  | some a => (a, c)
  | none =>
      let rows := genreRows s
      if rows = [] then (emptyGenreAnalysis, c)
      else
        let a := computeGenres rows
        (a, upsertCache "genres" a c)

/-- One entry of the cast statistics. -/
structure PersonData where
  name : String
  count : Nat
  averageRating : ℚ
  movieTitles : List String
deriving Repr, DecidableEq

/-- Result of `analyze_cast` (insight strings not modelled). -/
structure CastAnalysis where
  favoriteActors : List PersonData
  favoriteDirectors : List PersonData
deriving Repr, DecidableEq

/-- The actor join of `analyze_cast`: one `(name, rating, title)` row per
matching `(cast row, rating, movie)` triple with role `actor`. -/
def actorRows (s : Store) : List (String × ℤ × String) :=
  ((castJoined s).filter (fun t => t.2.2.role = "actor")).map
    (fun t => (t.2.2.name, t.2.1.rating, t.1.title))

/-- The director rows of `analyze_cast` (`Movie.director` non-null). -/
def directorRows (s : Store) : List (String × ℤ × String) :=
  ((joinedRows s).filter (fun p => p.1.director.isSome)).map
    (fun p => (p.1.director.getD "", p.2.rating, p.1.title))

/-- Ratings accumulated for person `n` (one per joined row). -/
def personRatings (rows : List (String × ℤ × String)) (n : String) : List ℤ :=
  (rows.filter (fun t => t.1 = n)).map (fun t => t.2.1)

/-- Movie titles accumulated for person `n` (one per joined row). -/
def personMovies (rows : List (String × ℤ × String)) (n : String) : List String :=
  (rows.filter (fun t => t.1 = n)).map (fun t => t.2.2)

/-- Sort order of `analyze_cast`: descending lexicographically by
(average rating, count). -/
def castLe (a b : PersonData) : Prop :=
  b.averageRating < a.averageRating ∨
    (b.averageRating = a.averageRating ∧ b.count ≤ a.count)

instance : DecidableRel castLe := fun a b => by
  unfold castLe; infer_instance

instance : IsTotal PersonData castLe := by
  constructor
  intro a b
  unfold castLe
  rcases lt_trichotomy a.averageRating b.averageRating with h | h | h
  · exact Or.inr (Or.inl h)
  · rcases Nat.le_total b.count a.count with hc | hc
    · exact Or.inl (Or.inr ⟨h.symm, hc⟩)
    · exact Or.inr (Or.inr ⟨h, hc⟩)
  · exact Or.inl (Or.inl h)

instance : IsTrans PersonData castLe := by
  constructor
  intro a b c hab hbc
  unfold castLe at *
  rcases hab with h1 | ⟨h1, h1c⟩ <;> rcases hbc with h2 | ⟨h2, h2c⟩
  · exact Or.inl (h2.trans h1)
  · exact Or.inl (h2 ▸ h1)
  · exact Or.inl (h1 ▸ h2)
  · exact Or.inr ⟨h2.trans h1, h2c.trans h1c⟩

/-- Qualification of `analyze_cast` for one role: the persons with at
least 2 joined rows, each carrying at most 5 example titles. -/
def qualifiedPersons (rows : List (String × ℤ × String)) : List PersonData :=
  (firstDedup (rows.map (fun t => t.1))).filterMap (fun n =>
    let rs := personRatings rows n
    if 2 ≤ rs.length then
      some { name := n, count := rs.length
             averageRating := round2 (listMean rs)
             movieTitles := (personMovies rows n).take 5 }
    else none)

/-- Ranking of `analyze_cast` for one role: qualifying persons ranked by
(mean rating, count) descending, top 10 retained. -/
def computePersons (rows : List (String × ℤ × String)) : List PersonData :=
  (List.insertionSort castLe (qualifiedPersons rows)).take 10

/-- `analyze_cast` without the cache-lookup wrapper. -/
def analyzeCastFresh (s : Store) : CastAnalysis :=
  { favoriteActors := computePersons (actorRows s)
    favoriteDirectors := computePersons (directorRows s) }

/-! ## Insight composition (generate_overall_insights) -/

/-- The condensed statistics handed to the insight composer. -/
structure AnalysisSummary where
  favoriteGenreNames : List String
  leastFavoriteGenreNames : List String
  favoriteDecades : List String
  preferredLength : String
  averageRuntime : ℚ
  favoriteActorNames : List String
  favoriteDirectorNames : List String
deriving Repr, DecidableEq

/-- Result of `generate_overall_insights` (the `key_preferences` echo of
the summary is omitted). -/
structure OverallInsights where
  personalityProfile : String
  viewingPatterns : String
  recommendations : List String
  claudeAnalysis : String
deriving Repr, DecidableEq

/-- `_generate_claude_insights`: the external LLM call is modelled by its
outcome `llmCall`; without an API key the result is the empty string; a
raised error is caught and replaced by the fixed fallback text. -/
def generateClaudeInsights (apiKey : Option String)
    (llmCall : Except String String) : String :=
  match apiKey with
  | none => ""
  | some _ =>
      match llmCall with
      | .ok text => text
      | .error _ => "Claude analysis unavailable."

/-- `_generate_personality_profile`. -/
def generatePersonalityProfile (d : AnalysisSummary) : String :=
  let parts :=
    (if d.favoriteGenreNames ≠ [] then
      ["You gravitate towards " ++
        String.intercalate ", " d.favoriteGenreNames ++ " films"]
     else []) ++
    (if d.preferredLength ≠ "" then
      ["prefer " ++ myToLower d.preferredLength ++ " movies"]
     else [])
  String.intercalate ". " parts ++ "."

/-- `_generate_viewing_patterns`. -/
def generateViewingPatterns (d : AnalysisSummary) : String :=
  match d.favoriteDecades.head? with
  | some fav => "You show a strong preference for " ++ fav ++ " cinema."
  | none => "No clear viewing patterns identified."

/-- `_generate_recommendations_list`. -/
def generateRecommendationsList (d : AnalysisSummary) : List String :=
  ((match d.favoriteGenreNames with
    | g :: _ => ["More " ++ g ++ " films"]
    | [] => []) ++
   (match d.favoriteDirectorNames with
    | dd :: _ => ["Films by " ++ dd]
    | [] => [])).take 5

/-- The recompute path of `generate_overall_insights`: assembles the
insight object; the LLM elaboration is attempted only when an API key is
configured, and its failure is absorbed inside `generateClaudeInsights`,
so the object is always produced. -/
def generateOverallInsights (d : AnalysisSummary) (apiKey : Option String)
    (llmCall : Except String String) : OverallInsights :=
  { personalityProfile := generatePersonalityProfile d
    viewingPatterns := generateViewingPatterns d
    recommendations := generateRecommendationsList d
    claudeAnalysis :=
      match apiKey with
      | some _ => generateClaudeInsights apiKey llmCall
      | none => "" }

/-! ## Job admission control (api/scraping.py) -/

/-- A `ScrapingStatus` row (only the status field matters here). -/
structure JobRecord where
  status : String
deriving Repr, DecidableEq

/-- The admission gate: is any job in a non-terminal state? -/
def hasActiveJob (jobs : List JobRecord) : Bool :=
  jobs.any (fun j => j.status = "pending" || j.status = "running")

/-- `POST /scraping/start`: HTTP 400 when a non-terminal job exists,
otherwise append one new `pending` record. -/
def startScrapingJob (jobs : List JobRecord) : Except Nat (List JobRecord) :=
  if hasActiveJob jobs then .error 400
  else .ok (jobs ++ [{ status := "pending" }])

/-- `POST /scraping/scrape-posters`: same admission logic. -/
def scrapePostersJob (jobs : List JobRecord) : Except Nat (List JobRecord) :=
  if hasActiveJob jobs then .error 400
  else .ok (jobs ++ [{ status := "pending" }])

/-- `POST /scraping/import-csv`: the admission check comes first, but the
request ALSO fails with HTTP 400 — before any record is created — when
the resolved CSV path does not exist on disk. -/
def importCsvJob (jobs : List JobRecord) (csvFileExists : Bool) :
    Except Nat (List JobRecord) :=
  if hasActiveJob jobs then .error 400
  else if ¬ csvFileExists then .error 400
  else .ok (jobs ++ [{ status := "pending" }])

/-! ## CSV importer (importer/csv_importer.py)

Cell-level CSV parsing (pandas `notna`, numeric coercion) is out of scope
per the spec; a row arrives with typed optional cells, `none` meaning a
missing or unparseable cell. -/

/-- One CSV row, already cell-parsed. -/
structure CsvRow where
  const : String
  title : Option String := none
  yourRating : Option ℤ := none
  dateRated : Option ℤ := none
  year : Option ℤ := none
  runtimeMins : Option ℤ := none
  genresField : Option String := none
  directorsField : Option String := none
deriving Repr, DecidableEq

/-- `_clean_text_field`: strip, map blank (or missing) to `None`. -/
def cleanText (v : Option String) : Option String :=
  match v with
  | none => none
  | some t => let t := myTrim t; if t = "" then none else some t

/-- The autoincrement id `flush()` would assign to a new movie row. -/
def nextMovieId (s : Store) : Nat :=
  (s.movies.map (fun m => m.id)).foldr max 0 + 1

/-- `_extract_movie_data` (fields the model carries); `none` when the
row has no usable title, in which case the movie INSERT violates the
NOT NULL constraint and the row's transaction is rolled back. -/
def extractMovieData (row : CsvRow) (mid : Nat) : Option Movie :=
  match cleanText row.title with
  | none => none
  | some t =>
      some { id := mid, imdbId := myTrim row.const, title := t
             year := row.year, runtimeMinutes := row.runtimeMins
             genres := (cleanText row.genresField).map (fun g =>
               ((mySplitComma g).map myTrim).filter (fun x => x ≠ ""))
             director := (cleanText row.directorsField).map (fun d =>
               (myTrim ((mySplitComma d).headD ""))) }

/-- `_extract_rating_data`; `none` when the rating cell is missing or
unparseable, in which case the rating INSERT violates NOT NULL and the
row's transaction is rolled back. -/
def extractRatingData (row : CsvRow) (mid : Nat) : Option UserRating :=
  match row.yourRating with
  | none => none
  | some v => some { movieId := mid, rating := v, ratedAt := row.dateRated }

/-- The director cast rows added with a newly created movie: split on
commas, strip, first 3, blanks dropped. -/
def directorCastRows (row : CsvRow) (mid : Nat) : List CastMember :=
  match cleanText row.directorsField with
  | none => []
  | some d =>
      (((mySplitComma d).map myTrim).take 3).filterMap (fun n =>
        if n = "" then none
        else some { movieId := mid, name := n, role := "director" })

/-- `_process_single_row`: one row, one transaction. An invalid IMDb id
skips the row; an existing movie is reused untouched; an existing rating
for the movie ends the row with nothing added; any constraint failure
rolls the whole row back (the store is returned unchanged). -/
def processSingleRow (s : Store) (row : CsvRow) : Store :=
  let imdbId := myTrim row.const
  if ¬ myStartsWith imdbId "tt" then s
  else
    match s.movies.find? (fun m => m.imdbId = imdbId) with
    | some movie =>
        if (s.ratings.find? (fun r => r.movieId = movie.id)).isSome then s
        else
          match extractRatingData row movie.id with
          | some r => { s with ratings := s.ratings ++ [r] }
          | none => s
    | none =>
        let mid := nextMovieId s
        match extractMovieData row mid with
        | none => s
        | some movie =>
            let dirs := directorCastRows row mid
            if (s.ratings.find? (fun r => r.movieId = mid)).isSome then
              { s with movies := s.movies ++ [movie]
                       castMembers := s.castMembers ++ dirs }
            else
              match extractRatingData row mid with
              | some r =>
                  { s with movies := s.movies ++ [movie]
                           castMembers := s.castMembers ++ dirs
                           ratings := s.ratings ++ [r] }
              | none => s

/-! ## Fixtures -/

/-- Fixture movie: rated drama by director X. -/
def mvA : Movie :=
  { id := 1, imdbId := "tt001", title := "A", year := some 2000
    runtimeMinutes := some 100, genres := some ["Drama"], director := some "X" }

/-- Fixture movie: rated comedy by the same director X, no shared genre. -/
def mvB : Movie :=
  { id := 2, imdbId := "tt002", title := "B", year := some 2001
    runtimeMinutes := some 100, genres := some ["Comedy"], director := some "X" }

/-- Two rated movies sharing a director but no genre. -/
def storeAB : Store :=
  { movies := [mvA, mvB]
    ratings := [{ movieId := 1, rating := 9 }, { movieId := 2, rating := 7 }] }

/-- A store whose only rated movie runs 10000 minutes. -/
def storeEpic : Store :=
  { movies := [{ id := 1, imdbId := "tt003", title := "Long One"
                 runtimeMinutes := some 10000 }]
    ratings := [{ movieId := 1, rating := 8 }] }

/-! ## C1 — runtime bucketing -/

/-- C1: the four runtime buckets are a partition of `[0, 999]` only: the
"Epic" bucket is implemented with an upper bound of 999 although its own
label says "150+ min", so a rated movie with runtime 10000 matches NO
bucket and `analyze_runtime` counts it in no bucket at all (with such a
movie alone, the distribution is empty and the preferred length is
"Unknown", while the movie still contributes to the average runtime). -/
theorem C1_runtime_bucket_gap :
    (∀ n : ℕ, n ≤ 999 → (matchingBuckets (n : ℤ)).length = 1) ∧
    matchingBuckets 10000 = [] ∧
    bucketOf 10000 = none ∧
    analyzeRuntimeFresh storeEpic =
      { runtimeDistribution := [], preferredLength := "Unknown"
        averageRuntime := 10000 } := by
  refine ⟨by decide, by decide, by decide, by decide⟩

/-- Witness for C1 at the concrete runtimes named by the claim. -/
theorem C1_runtime_bucket_gap_witness :
    (matchingBuckets 0).length = 1 ∧ (matchingBuckets 89).length = 1 ∧
    (matchingBuckets 90).length = 1 ∧ (matchingBuckets 119).length = 1 ∧
    (matchingBuckets 120).length = 1 ∧ (matchingBuckets 149).length = 1 ∧
    (matchingBuckets 150).length = 1 ∧ matchingBuckets 10000 = [] :=
  ⟨C1_runtime_bucket_gap.1 0 (by decide), C1_runtime_bucket_gap.1 89 (by decide),
   C1_runtime_bucket_gap.1 90 (by decide), C1_runtime_bucket_gap.1 119 (by decide),
   C1_runtime_bucket_gap.1 120 (by decide), C1_runtime_bucket_gap.1 149 (by decide),
   C1_runtime_bucket_gap.1 150 (by decide), C1_runtime_bucket_gap.2.1⟩

/-! ## C2 — assistant executor vs MovieTools registry -/

/-- C2: dispatching the same call through the conversational assistant's
`execute_mcp_tool` and through `MovieTools` does NOT yield the same
result. On `storeAB`, `find_similar_movies(tt001, all)` returns the
same-director movie B from `MovieTools` but nothing from the assistant's
executor (which only implements the genre branch), and
`filter_movies(sort_by=bogus)` succeeds in `MovieTools` (rating fallback)
but returns a structured error from the executor (an unassigned local
variable is referenced). -/
theorem C2_executor_divergence :
    (mtFindSimilarMovies storeAB "tt001" "all" 10).map (fun r => r.similar) =
      .ok [(mvB, { movieId := 2, rating := 7 })] ∧
    (chatFindSimilarMovies storeAB "tt001" "all" 10).map (fun r => r.1) =
      .ok [] ∧
    ([(mvB, ({ movieId := 2, rating := 7 } : UserRating))] : List (Movie × UserRating)) ≠ [] ∧
    mtFilterMovies storeAB { sortBy := some "bogus" } =
      [(mvA, { movieId := 1, rating := 9 }), (mvB, { movieId := 2, rating := 7 })] ∧
    chatFilterMovies storeAB { sortBy := some "bogus" } =
      .error "Error executing tool filter_movies: local variable referenced before assignment" := by
  refine ⟨by decide, by decide, by decide, by decide, by decide⟩

/-! ## C4 — LLM elaboration failure -/

/-- A fixture summary for the insight composer. -/
def sumFix : AnalysisSummary :=
  { favoriteGenreNames := ["Drama"], leastFavoriteGenreNames := ["Horror"]
    favoriteDecades := ["1990s"], preferredLength := "Long (120-149 min)"
    averageRuntime := 120, favoriteActorNames := ["X"]
    favoriteDirectorNames := ["Y"] }

/-- C4 counterexample: when the external LLM call fails, the elaboration
field of the returned insights is the fixed fallback text
"Claude analysis unavailable.", which is NOT the empty string. -/
theorem C4_elaboration_not_empty :
    (generateOverallInsights sumFix (some "key") (.error "boom")).claudeAnalysis =
      "Claude analysis unavailable." ∧
    (generateOverallInsights sumFix (some "key") (.error "boom")).claudeAnalysis ≠ "" := by
  refine ⟨by decide, by decide⟩

/-- C4 amended: for EVERY summary, API key and failing LLM call, the
insight request still succeeds and produces the same object as it would
otherwise, except that the elaboration field holds the fixed fallback
text (not the empty string); the failure never escapes. -/
theorem C4_elaboration_fallback (d : AnalysisSummary) (key e : String) :
    generateOverallInsights d (some key) (.error e) =
      { personalityProfile := generatePersonalityProfile d
        viewingPatterns := generateViewingPatterns d
        recommendations := generateRecommendationsList d
        claudeAnalysis := "Claude analysis unavailable." } := by
  rfl

/-- Witness for C4 at a concrete summary, key and error. -/
theorem C4_elaboration_fallback_witness :
    generateOverallInsights sumFix (some "key2") (.error "timeout") =
      { personalityProfile := generatePersonalityProfile sumFix
        viewingPatterns := generateViewingPatterns sumFix
        recommendations := generateRecommendationsList sumFix
        claudeAnalysis := "Claude analysis unavailable." } :=
  C4_elaboration_fallback sumFix "key2" "timeout"

/-! ## C8 — job admission control -/

/-- C8 counterexample: `POST /scraping/import-csv` fails with HTTP 400
and creates no job record even though NO non-terminal job exists, when
the CSV file is missing — refuting the claimed "if and only if". -/
theorem C8_import_csv_400_without_active_job :
    hasActiveJob [] = false ∧ importCsvJob [] false = .error 400 := by
  refine ⟨by decide, by decide⟩

/-- C8 amended: for `/scraping/start` and `/scraping/scrape-posters` the
claimed equivalence holds: HTTP 400 with no record created exactly when a
pending/running job exists, and otherwise exactly one new pending record;
`/scraping/import-csv` additionally fails with 400 (creating no record)
when the CSV file does not exist. -/
theorem C8_admission_control (jobs : List JobRecord) (fe : Bool) :
    (startScrapingJob jobs = .error 400 ↔ hasActiveJob jobs = true) ∧
    (hasActiveJob jobs = false →
      startScrapingJob jobs = .ok (jobs ++ [{ status := "pending" }])) ∧
    (scrapePostersJob jobs = .error 400 ↔ hasActiveJob jobs = true) ∧
    (hasActiveJob jobs = false →
      scrapePostersJob jobs = .ok (jobs ++ [{ status := "pending" }])) ∧
    (importCsvJob jobs fe = .error 400 ↔
      (hasActiveJob jobs = true ∨ fe = false)) ∧
    (hasActiveJob jobs = false → fe = true →
      importCsvJob jobs fe = .ok (jobs ++ [{ status := "pending" }])) := by
  unfold startScrapingJob scrapePostersJob importCsvJob
  by_cases h : hasActiveJob jobs = true
  · simp [h]
  · have h' : hasActiveJob jobs = false := by
      cases hv : hasActiveJob jobs
      · rfl
      · exact absurd hv h
    cases fe <;> simp [h']

/-- Witness for C8 at a concrete job table and file state. -/
theorem C8_admission_control_witness :
    startScrapingJob [{ status := "completed" }] =
      .ok [{ status := "completed" }, { status := "pending" }] ∧
    importCsvJob [{ status := "completed" }] true =
      .ok [{ status := "completed" }, { status := "pending" }] :=
  ⟨(C8_admission_control [{ status := "completed" }] true).2.1 (by decide),
   (C8_admission_control [{ status := "completed" }] true).2.2.2.2.2
     (by decide) rfl⟩

/-! ## C9 — CSV re-import skips existing rows -/

/-- C9: when the movie referenced by a CSV row already exists (by IMDb
id) and already has a user rating, `_process_single_row` leaves the
store completely unchanged — whatever rating, title or director the
re-imported row carries. -/
theorem C9_reimport_skip (s : Store) (row : CsvRow) (m : Movie)
    (hm : s.movies.find? (fun x => x.imdbId = myTrim row.const) = some m)
    (hr : (s.ratings.find? (fun r => r.movieId = m.id)).isSome = true) :
    processSingleRow s row = s := by
  unfold processSingleRow
  by_cases htt : myStartsWith (myTrim row.const) "tt"
  · simp [htt, hm, hr]
  · simp [htt]

/-- Witness for C9: re-importing movie A with a different rating and
director changes nothing. -/
theorem C9_reimport_skip_witness :
    processSingleRow storeAB
      { const := "tt001", title := some "A retitled", yourRating := some 3
        directorsField := some "Somebody Else" } = storeAB :=
  C9_reimport_skip storeAB
    { const := "tt001", title := some "A retitled", yourRating := some 3
      directorsField := some "Somebody Else" } mvA (by decide) (by decide)

/-! ## C3 — cache-or-recompute semantics -/

theorem lookupCache_upsert (kind : String) (v : GenreAnalysis) :
    ∀ c : Cache, lookupCache (upsertCache kind v c) kind = some v := by
  intro c
  induction c with
  | nil => simp [upsertCache, lookupCache]
  | cons p rest ih =>
      by_cases h : p.1 = kind
      · simp [upsertCache, h, lookupCache]
      · simpa [upsertCache, h, lookupCache, List.find?] using ih

/-- A rated one-movie store with a genre. -/
def storeOne : Store := { movies := [mvA], ratings := [{ movieId := 1, rating := 9 }] }

/-- A stale cached genre analysis. -/
def gaOld : GenreAnalysis :=
  { favoriteGenres := [{ genre := "Drama", count := 1, averageRating := 9, percentage := 100 }]
    leastFavoriteGenres := [{ genre := "Drama", count := 1, averageRating := 9, percentage := 100 }]
    genreDistribution := [("Drama", 1)] }

/-- The empty store. -/
def emptyStore : Store := {}

/-- C3 counterexample: when the recompute path sees an EMPTY join, the
early return skips `_save_analysis`. So (i) `force_regenerate=true` on an
empty store returns the empty analysis but leaves a stale cached row in
place instead of replacing it, and (ii) after a first call that saw an
empty join, a second call without `force_regenerate` recomputes from the
changed store and returns a different output than the first. -/
theorem C3_empty_join_skips_persist :
    analyzeGenres true emptyStore [("genres", gaOld)] =
      (emptyGenreAnalysis, [("genres", gaOld)]) ∧
    gaOld ≠ emptyGenreAnalysis ∧
    (analyzeGenres false storeOne (analyzeGenres false emptyStore []).2).1 ≠
      (analyzeGenres false emptyStore []).1 := by
  refine ⟨by decide, by decide, by decide⟩

/-- C3 amended: the claimed cache semantics hold whenever the relevant
recompute sees a non-empty join (or the cache already holds the kind):
a cache hit is returned unchanged with no recompute; a second call
without `force_regenerate` returns the first call's output whatever the
store then contains; `force_regenerate=true` recomputes from the current
store and persists the result under the kind key by upsert. -/
theorem C3_cache_or_recompute (s s2 : Store) (c : Cache) :
    (∀ a, lookupCache c "genres" = some a → analyzeGenres false s c = (a, c)) ∧
    ((lookupCache c "genres").isSome = true ∨ genreRows s ≠ [] →
      ∀ s3, (analyzeGenres false s3 (analyzeGenres false s c).2).1 =
        (analyzeGenres false s c).1) ∧
    (genreRows s2 ≠ [] →
      (analyzeGenres true s2 c).1 = computeGenres (genreRows s2) ∧
      lookupCache (analyzeGenres true s2 c).2 "genres" =
        some (computeGenres (genreRows s2))) := by
  refine ⟨?_, ?_, ?_⟩
  · intro a ha
    simp [analyzeGenres, ha]
  · intro h s3
    cases hc : lookupCache c "genres" with
    | some a => simp [analyzeGenres, hc]
    | none =>
        have hrows : genreRows s ≠ [] := by
          rcases h with h | h
          · rw [hc] at h; simp at h
          · exact h
        simp [analyzeGenres, hc, hrows, lookupCache_upsert]
  · intro h2
    constructor
    · simp [analyzeGenres, h2]
    · simp [analyzeGenres, h2, lookupCache_upsert]

/-- Witness for C3 at concrete stores and caches. -/
theorem C3_cache_or_recompute_witness :
    analyzeGenres false storeOne [("genres", gaOld)] =
      (gaOld, [("genres", gaOld)]) ∧
    (analyzeGenres true storeOne []).1 = computeGenres (genreRows storeOne) :=
  ⟨(C3_cache_or_recompute storeOne storeOne [("genres", gaOld)]).1 gaOld (by decide),
   ((C3_cache_or_recompute storeOne storeOne []).2.2 (by decide)).1⟩

/-! ## C5 — cast qualification and ranking -/

theorem mem_qualifiedPersons {rows : List (String × ℤ × String)}
    {p : PersonData} (h : p ∈ qualifiedPersons rows) :
    2 ≤ (personRatings rows p.name).length ∧
    p.count = (personRatings rows p.name).length ∧
    p.movieTitles.length ≤ 5 := by
  obtain ⟨n, _, hf⟩ := List.mem_filterMap.1 h
  by_cases h2 : 2 ≤ (personRatings rows n).length
  · simp only [qualifiedPersons, if_pos h2] at hf
    cases hf
    exact ⟨h2, rfl, List.length_take_le _ _⟩
  · simp [if_neg h2] at hf

theorem computePersons_spec (rows : List (String × ℤ × String)) :
    (computePersons rows).length ≤ 10 ∧
    List.Sorted castLe (computePersons rows) ∧
    (∀ p ∈ computePersons rows,
      2 ≤ (personRatings rows p.name).length ∧
      p.count = (personRatings rows p.name).length ∧
      p.movieTitles.length ≤ 5) ∧
    (∀ n ∈ rows.map (fun t => t.1), 2 ≤ (personRatings rows n).length →
      ∃ p ∈ qualifiedPersons rows, p.name = n) := by
  refine ⟨List.length_take_le _ _, ?_, ?_, ?_⟩
  · exact List.Pairwise.sublist (List.take_sublist _ _)
      (List.sorted_insertionSort castLe (qualifiedPersons rows))
  · intro p hp
    have hs : p ∈ List.insertionSort castLe (qualifiedPersons rows) :=
      List.take_subset _ _ hp
    have hq : p ∈ qualifiedPersons rows :=
      (List.perm_insertionSort castLe (qualifiedPersons rows)).mem_iff.1 hs
    exact mem_qualifiedPersons hq
  · intro n hn h2
    refine ⟨{ name := n, count := (personRatings rows n).length
              averageRating := round2 (listMean (personRatings rows n))
              movieTitles := (personMovies rows n).take 5 }, ?_, rfl⟩
    refine List.mem_filterMap.2 ⟨n, mem_firstDedup.2 hn, ?_⟩
    simp only [qualifiedPersons, if_pos h2]

/-- A one-movie store in which actor X has two duplicate cast rows. -/
def storeDupCast : Store :=
  { movies := [{ id := 1, imdbId := "tt010", title := "M" }]
    ratings := [{ movieId := 1, rating := 8 }]
    castMembers := [{ movieId := 1, name := "X", role := "actor" },
                    { movieId := 1, name := "X", role := "actor" }] }

/-- C5 counterexample: qualification counts joined cast-appearance rows,
not distinct rated movies. With two duplicate `actor` rows for the same
single rated movie, X reaches count 2 and appears in the output, although
X has exactly 1 distinct rated movie. -/
theorem C5_one_movie_actor_included :
    ((analyzeCastFresh storeDupCast).favoriteActors.map (fun p => p.name)) = ["X"] ∧
    (firstDedup (personMovies (actorRows storeDupCast) "X")).length = 1 := by
  refine ⟨by decide, by decide⟩

/-- C5 amended: a person enters the per-role ranking of `analyze_cast`
exactly when they have at least 2 joined cast rows (which equals distinct
rated movies only when no duplicate rows exist); every output entry has
at least 2 such rows, carries its row count and at most 5 example titles;
output is ranked by (mean rating, count), both descending, and at most 10
entries are retained per role. -/
theorem C5_cast_threshold_ranking (s : Store) :
    analyzeCastFresh s =
      { favoriteActors := computePersons (actorRows s)
        favoriteDirectors := computePersons (directorRows s) } ∧
    ((computePersons (actorRows s)).length ≤ 10 ∧
      List.Sorted castLe (computePersons (actorRows s)) ∧
      (∀ p ∈ computePersons (actorRows s),
        2 ≤ (personRatings (actorRows s) p.name).length ∧
        p.count = (personRatings (actorRows s) p.name).length ∧
        p.movieTitles.length ≤ 5) ∧
      (∀ n ∈ (actorRows s).map (fun t => t.1),
        2 ≤ (personRatings (actorRows s) n).length →
        ∃ p ∈ qualifiedPersons (actorRows s), p.name = n)) ∧
    ((computePersons (directorRows s)).length ≤ 10 ∧
      List.Sorted castLe (computePersons (directorRows s)) ∧
      (∀ p ∈ computePersons (directorRows s),
        2 ≤ (personRatings (directorRows s) p.name).length ∧
        p.count = (personRatings (directorRows s) p.name).length ∧
        p.movieTitles.length ≤ 5) ∧
      (∀ n ∈ (directorRows s).map (fun t => t.1),
        2 ≤ (personRatings (directorRows s) n).length →
        ∃ p ∈ qualifiedPersons (directorRows s), p.name = n)) :=
  ⟨rfl, computePersons_spec (actorRows s), computePersons_spec (directorRows s)⟩

/-- Witness for C5: a two-movie store where actor Y appears in both
(included, count 2) and actor Z in one (not in the ranking). -/
def storeCastW : Store :=
  { movies := [{ id := 1, imdbId := "tt011", title := "M1" },
               { id := 2, imdbId := "tt012", title := "M2" }]
    ratings := [{ movieId := 1, rating := 8 }, { movieId := 2, rating := 6 }]
    castMembers := [{ movieId := 1, name := "Y", role := "actor" },
                    { movieId := 2, name := "Y", role := "actor" },
                    { movieId := 1, name := "Z", role := "actor" }] }

theorem C5_cast_threshold_ranking_witness :
    (∀ p ∈ computePersons (actorRows storeCastW),
      2 ≤ (personRatings (actorRows storeCastW) p.name).length ∧
      p.count = (personRatings (actorRows storeCastW) p.name).length ∧
      p.movieTitles.length ≤ 5) ∧
    (∃ p ∈ qualifiedPersons (actorRows storeCastW), p.name = "Y") :=
  ⟨(C5_cast_threshold_ranking storeCastW).2.1.2.2.1,
   (C5_cast_threshold_ranking storeCastW).2.1.2.2.2 "Y" (by decide) (by decide)⟩

/-! ## C6 — find_similar_movies invariants -/

theorem mem_castJoined_proj {s : Store} {t : Movie × UserRating × CastMember}
    (h : t ∈ castJoined s) : (t.1, t.2.1) ∈ joinedRows s := by
  obtain ⟨p, hp, hmap⟩ := List.mem_flatMap.1 h
  obtain ⟨c, _, heq⟩ := List.mem_map.1 hmap
  cases heq
  exact hp

theorem mem_genreBranch {s : Store} {ref : Movie} {lim : Nat}
    {p : Movie × UserRating} (h : p ∈ genreBranch s ref lim) :
    p.1.id ≠ ref.id ∧ p ∈ joinedRows s := by
  cases hg : ref.genres with
  | none => simp [genreBranch, hg] at h
  | some gs =>
      by_cases hgs : gs = []
      · simp [genreBranch, hg, hgs] at h
      · simp only [genreBranch, hg, if_neg hgs] at h
        have h' := List.take_subset _ _ h
        have hm := List.mem_filter.1 h'
        have hpred := hm.2
        simp only [Bool.and_eq_true, decide_eq_true_eq] at hpred
        exact ⟨hpred.1, hm.1⟩

theorem mem_directorBranch {s : Store} {ref : Movie} {lim : Nat}
    {p : Movie × UserRating} (h : p ∈ directorBranch s ref lim) :
    p.1.id ≠ ref.id ∧ p ∈ joinedRows s := by
  cases hg : ref.director with
  | none => simp [directorBranch, hg] at h
  | some d =>
      by_cases hd : d = ""
      · simp [directorBranch, hg, hd] at h
      · simp only [directorBranch, hg, if_neg hd] at h
        have h' := List.take_subset _ _ h
        have hm := List.mem_filter.1 h'
        have hpred := hm.2
        simp only [Bool.and_eq_true, decide_eq_true_eq] at hpred
        exact ⟨hpred.1, hm.1⟩

theorem mem_castBranch {s : Store} {ref : Movie} {lim : Nat}
    {p : Movie × UserRating} (h : p ∈ castBranch s ref lim) :
    p.1.id ≠ ref.id ∧ p ∈ joinedRows s := by
  unfold castBranch at h
  have h' := List.take_subset _ _ h
  obtain ⟨t, ht, heq⟩ := List.mem_map.1 h'
  have hm := List.mem_filter.1 ht
  have hpred := hm.2
  simp only [Bool.and_eq_true, decide_eq_true_eq] at hpred
  cases heq
  exact ⟨hpred.1, mem_castJoined_proj hm.1⟩

theorem mem_similarCandidates {s : Store} {ref : Movie} {simType : String}
    {lim : Nat} {p : Movie × UserRating}
    (h : p ∈ similarCandidates s ref simType lim) :
    p.1.id ≠ ref.id ∧ p ∈ joinedRows s := by
  unfold similarCandidates at h
  rcases List.mem_append.1 h with h' | h'
  · rcases List.mem_append.1 h' with h'' | h''
    · by_cases hc : (simType = "genre" || simType = "all") = true
      · rw [if_pos hc] at h''; exact mem_genreBranch h''
      · rw [if_neg hc] at h''; simp at h''
    · by_cases hc : (simType = "director" || simType = "all") = true
      · rw [if_pos hc] at h''; exact mem_directorBranch h''
      · rw [if_neg hc] at h''; simp at h''
  · by_cases hc : (simType = "cast" || simType = "all") = true
    · rw [if_pos hc] at h'; exact mem_castBranch h'
    · rw [if_neg hc] at h'; simp at h'

theorem similarCandidates_zero (s : Store) (ref : Movie) (simType : String) :
    similarCandidates s ref simType 0 = [] := by
  have hg : genreBranch s ref 0 = [] := by
    unfold genreBranch
    cases ref.genres with
    | none => rfl
    | some gs => by_cases hgs : gs = [] <;> simp [hgs]
  have hd : directorBranch s ref 0 = [] := by
    unfold directorBranch
    cases ref.director with
    | none => rfl
    | some d => by_cases hd : d = "" <;> simp [hd]
  have hc : castBranch s ref 0 = [] := by
    unfold castBranch; simp
  unfold similarCandidates
  rw [hg, hd, hc]
  simp

/-- C6: for every store, reference identifier, similarity type and limit,
when the reference resolves, `find_similar_movies` succeeds and its
result list never contains the reference movie, never repeats a movie
identity, has at most `limit` entries, and is a subsequence of the
candidate union (first-seen order preserved under de-duplication); when
the reference does not resolve, a structured error is returned. -/
theorem C6_similar_invariants (s : Store) (ident simType : String) (lim : Nat) :
    (∀ ref res, resolveRef s ident = some ref →
      mtFindSimilarMovies s ident simType lim = .ok res →
      res.similar.length ≤ lim ∧
      (∀ p ∈ res.similar, p.1.id ≠ ref.id) ∧
      ((res.similar.map (fun p => p.1.id)).Nodup ∧
        res.similar.Sublist (similarCandidates s ref simType lim))) ∧
    (∀ ref, resolveRef s ident = some ref →
      mtFindSimilarMovies s ident simType lim =
        .ok { similar := dedupTake lim [] (similarCandidates s ref simType lim)
              referenceTitle := ref.title
              similarityType := simType
              count := (dedupTake lim [] (similarCandidates s ref simType lim)).length }) ∧
    (resolveRef s ident = none →
      mtFindSimilarMovies s ident simType lim =
        .error ("Reference movie not found: " ++ ident)) := by
  refine ⟨?_, ?_, ?_⟩
  · intro ref res href hok
    unfold mtFindSimilarMovies at hok
    rw [href] at hok
    simp only [Except.ok.injEq] at hok
    subst hok
    refine ⟨?_, ?_, ?_, ?_⟩
    · cases lim with
      | zero =>
          rw [similarCandidates_zero]
          simp [dedupTake]
      | succ n =>
          exact dedupTake_length_le (n + 1) [] _ (Nat.succ_le_succ (Nat.zero_le n))
    · intro p hp
      exact (mem_similarCandidates (mem_of_mem_dedupTake hp)).1
    · exact (dedupTake_nodup_ids lim [] _).1
    · exact dedupTake_sublist lim [] _
  · intro ref href
    unfold mtFindSimilarMovies
    rw [href]
  · intro hnone
    unfold mtFindSimilarMovies
    rw [hnone]

/-- Witness for C6: on `storeAB`, searching similars of A succeeds and
satisfies the invariants; an unresolvable identifier errors. -/
theorem C6_similar_invariants_witness :
    (∀ p ∈ (dedupTake 10 [] (similarCandidates storeAB mvA "all" 10)),
      p.1.id ≠ mvA.id) ∧
    mtFindSimilarMovies storeAB "zzz-missing" "all" 10 =
      .error ("Reference movie not found: " ++ "zzz-missing") :=
  ⟨((C6_similar_invariants storeAB "tt001" "all" 10).1 mvA
      { similar := dedupTake 10 [] (similarCandidates storeAB mvA "all" 10)
        referenceTitle := mvA.title, similarityType := "all"
        count := (dedupTake 10 [] (similarCandidates storeAB mvA "all" 10)).length }
      (by decide) ((C6_similar_invariants storeAB "tt001" "all" 10).2.1 mvA (by decide))).2.1,
   (C6_similar_invariants storeAB "zzz-missing" "all" 10).2.2 (by decide)⟩

/-! ## C7 — genre percentage sums -/

theorem filter_notMem_cons_of_mem {x : String} {seen2 : List String}
    (h : x ∈ seen2) (t : List String) :
    (x :: t).filter (fun y => y ∉ seen2) = t.filter (fun y => y ∉ seen2) := by
  rw [List.filter_cons]
  simp [h]

theorem filter_notMem_cons_of_not_mem {x : String} {seen2 : List String}
    (h : x ∉ seen2) (t : List String) :
    (x :: t).filter (fun y => y ∉ seen2) = x :: t.filter (fun y => y ∉ seen2) := by
  rw [List.filter_cons]
  simp [h]

theorem count_filter_split (a : String) (seen : List String) (ha : a ∉ seen) :
    ∀ t : List String,
      (t.filter (fun x => x ∉ seen)).length
        = t.count a + (t.filter (fun x => x ∉ (a :: seen))).length := by
  intro t
  induction t with
  | nil => simp
  | cons x t ih =>
      by_cases hxa : x = a
      · subst hxa
        rw [filter_notMem_cons_of_not_mem ha t,
          filter_notMem_cons_of_mem (List.mem_cons_self x seen) t,
          List.count_cons_self, List.length_cons]
        omega
      · by_cases hxs : x ∈ seen
        · have hxc : x ∈ a :: seen := List.mem_cons_of_mem _ hxs
          rw [filter_notMem_cons_of_mem hxs t, filter_notMem_cons_of_mem hxc t,
            List.count_cons_of_ne (fun hc => hxa hc.symm)]
          omega
        · have hxc : x ∉ a :: seen := by
            intro hc
            rcases List.mem_cons.1 hc with h | h
            · exact hxa h
            · exact hxs h
          rw [filter_notMem_cons_of_not_mem hxs t,
            filter_notMem_cons_of_not_mem hxc t,
            List.count_cons_of_ne (fun hc => hxa hc.symm)]
          simp only [List.length_cons]
          omega

theorem sum_count_firstDedupAux :
    ∀ (l seen : List String),
      ((firstDedupAux seen l).map (fun g => l.count g)).sum
        = (l.filter (fun x => x ∉ seen)).length := by
  intro l
  induction l with
  | nil => intro seen; simp [firstDedupAux]
  | cons a t ih =>
      intro seen
      by_cases ha : a ∈ seen
      · rw [firstDedupAux, if_pos ha]
        have hcong :
            (firstDedupAux seen t).map (fun g => (a :: t).count g)
              = (firstDedupAux seen t).map (fun g => t.count g) := by
          refine List.map_congr_left ?_
          intro g hg
          have hgs := (mem_firstDedupAux).1 hg
          have hga : g ≠ a := fun hc => hgs.2 (hc ▸ ha)
          simp [List.count_cons, hga, (Ne.symm hga)]
        rw [hcong, ih seen, filter_notMem_cons_of_mem ha t]
      · rw [firstDedupAux, if_neg ha]
        simp only [List.map_cons, List.sum_cons]
        have hcong :
            (firstDedupAux (a :: seen) t).map (fun g => (a :: t).count g)
              = (firstDedupAux (a :: seen) t).map (fun g => t.count g) := by
          refine List.map_congr_left ?_
          intro g hg
          have hgs := (mem_firstDedupAux).1 hg
          have hga : g ≠ a := fun hc => hgs.2 (hc ▸ List.mem_cons_self a seen)
          simp [List.count_cons, hga, (Ne.symm hga)]
        rw [hcong, ih (a :: seen), List.count_cons_self]
        have hsplit := count_filter_split a seen ha t
        rw [filter_notMem_cons_of_not_mem ha t, List.length_cons]
        omega

/-- The distinct-genre counts of the occurrence list sum back to its
length: every occurrence is counted under exactly one distinct genre. -/
theorem sum_count_firstDedup (l : List String) :
    ((firstDedup l).map (fun g => l.count g)).sum = l.length := by
  rw [firstDedup, sum_count_firstDedupAux l []]
  simp

theorem natCast_sum_map (l : List String) (f : String → ℕ) :
    (((l.map f).sum : ℕ) : ℚ) = (l.map (fun x => (f x : ℚ))).sum := by
  induction l with
  | nil => simp
  | cons x t ih => simp [ih]

theorem length_le_sum_ones {l : List ℕ} (h : ∀ x ∈ l, 1 ≤ x) :
    l.length ≤ l.sum := by
  induction l with
  | nil => simp
  | cons x t ih =>
      have hx := h x (List.mem_cons_self x t)
      have ht := ih (fun y hy => h y (List.mem_cons_of_mem x hy))
      simp only [List.length_cons, List.sum_cons]
      omega

theorem sum_eq_length_ones {l : List ℕ} (h : ∀ x ∈ l, x = 1) :
    l.sum = l.length := by
  induction l with
  | nil => simp
  | cons x t ih =>
      have hx := h x (List.mem_cons_self x t)
      have ht := ih (fun y hy => h y (List.mem_cons_of_mem x hy))
      simp only [List.length_cons, List.sum_cons]
      omega

/-- Three rated movies, each with exactly one (distinct) genre. -/
def store3 : Store :=
  { movies := [{ id := 1, imdbId := "tt101", title := "GA", genres := some ["A"] },
               { id := 2, imdbId := "tt102", title := "GB", genres := some ["B"] },
               { id := 3, imdbId := "tt103", title := "GC", genres := some ["C"] }]
    ratings := [{ movieId := 1, rating := 8 }, { movieId := 2, rating := 7 },
                { movieId := 3, rating := 6 }] }

/-- C7 counterexample: with 3 rated movies carrying exactly one genre
each, the REPORTED (rounded) per-genre percentages are 33.33 each and sum
to 99.99, not exactly 100 — the claimed consequence fails on the rounded
values the code stores. -/
theorem C7_rounded_sum_below_100 :
    (∀ p ∈ genreRows store3, (p.1.genres.getD []).length = 1) ∧
    ((genreDataOf (genreRows store3)).map (fun d => d.percentage)).sum
      = 9999 / 100 ∧
    (9999 / 100 : ℚ) ≠ 100 := by
  refine ⟨by decide, by decide, by decide⟩

/-- C7 amended: each reported percentage is the rounded value of the
exact percentage `count / rows * 100`, and the claimed sum laws hold for
the EXACT (pre-rounding) percentages: they sum to at least 100 whenever
every joined movie carries at least one genre, and to exactly 100 when
every joined movie carries exactly one genre; the rounded values may
drift below by up to half a cent per genre. -/
theorem C7_genre_pct_sum (s : Store)
    (hne : genreRows s ≠ [])
    (hall : ∀ p ∈ genreRows s, p.1.genres.getD [] ≠ []) :
    (∀ d ∈ genreDataOf (genreRows s),
      d.percentage = round2 (exactGenrePct (genreRows s) d.genre) ∧
      d.count = (allGenresOf (genreRows s)).count d.genre) ∧
    100 ≤ ((firstDedup (allGenresOf (genreRows s))).map
      (exactGenrePct (genreRows s))).sum ∧
    ((∀ p ∈ genreRows s, (p.1.genres.getD []).length = 1) →
      ((firstDedup (allGenresOf (genreRows s))).map
        (exactGenrePct (genreRows s))).sum = 100) := by
  set rows := genreRows s with hrows
  set allG := allGenresOf rows with hallG
  have hL : 0 < rows.length := List.length_pos.2 hne
  have hLQ : ((rows.length : ℕ) : ℚ) ≠ 0 := by
    exact_mod_cast Nat.pos_iff_ne_zero.1 hL
  -- the sum of the exact percentages is |allG| * (100 / |rows|)
  have hsum :
      ((firstDedup allG).map (exactGenrePct rows)).sum
        = ((allG.length : ℕ) : ℚ) * (100 / (rows.length : ℚ)) := by
    have hptw :
        (firstDedup allG).map (exactGenrePct rows)
          = (firstDedup allG).map
              (fun g => ((allG.count g : ℕ) : ℚ) * (100 / (rows.length : ℚ))) := by
      refine List.map_congr_left ?_
      intro g _
      unfold exactGenrePct
      rw [div_mul_eq_mul_div, mul_div_assoc]
    rw [hptw]
    rw [List.sum_map_mul_right]
    rw [← natCast_sum_map (firstDedup allG) (fun g => allG.count g)]
    rw [sum_count_firstDedup allG]
  -- |rows| ≤ |allG| when every movie has at least one genre
  have hlen : rows.length ≤ allG.length := by
    rw [hallG]
    unfold allGenresOf
    rw [List.length_flatMap]
    have := length_le_sum_ones
      (l := rows.map (fun p => (p.1.genres.getD []).length))
      (by
        intro x hx
        obtain ⟨p, hp, hpe⟩ := List.mem_map.1 hx
        have := hall p hp
        have : 0 < (p.1.genres.getD []).length := List.length_pos.2 this
        omega)
    simpa using this
  refine ⟨?_, ?_, ?_⟩
  · intro d hd
    obtain ⟨g, _, hde⟩ := List.mem_map.1 hd
    cases hde
    exact ⟨rfl, rfl⟩
  · rw [hsum]
    have h1 : ((rows.length : ℕ) : ℚ) * (100 / (rows.length : ℚ)) = 100 := by
      field_simp
    calc (100 : ℚ) = ((rows.length : ℕ) : ℚ) * (100 / (rows.length : ℚ)) := h1.symm
      _ ≤ ((allG.length : ℕ) : ℚ) * (100 / (rows.length : ℚ)) := by
          refine mul_le_mul_of_nonneg_right ?_ ?_
          · exact_mod_cast hlen
          · positivity
  · intro h1g
    have hlene : allG.length = rows.length := by
      rw [hallG]
      unfold allGenresOf
      rw [List.length_flatMap]
      have := sum_eq_length_ones
        (l := rows.map (fun p => (p.1.genres.getD []).length))
        (by
          intro x hx
          obtain ⟨p, hp, hpe⟩ := List.mem_map.1 hx
          rw [← hpe]
          exact h1g p hp)
      simpa using this
    rw [hsum, hlene]
    field_simp

/-- Witness for C7 on the three-movie fixture. -/
theorem C7_genre_pct_sum_witness :
    ((firstDedup (allGenresOf (genreRows store3))).map
      (exactGenrePct (genreRows store3))).sum = 100 :=
  (C7_genre_pct_sum store3 (by decide) (by decide)).2.2 (by decide)

/-! ## C10 — unrated movies are invisible to the tool registry -/

/-- C10: every movie-returning tool joins through `UserRating`, so a
movie without a rating row is never part of any result, and
`get_movie_details` on its exact IMDb id reports the structured
not-found error. -/
theorem C10_unrated_invisible (s : Store) (m : Movie)
    (_hm : m ∈ s.movies) (hnr : ∀ r ∈ s.ratings, r.movieId ≠ m.id) :
    (∀ q lim, ∀ p ∈ searchMovies s q lim, p.1.id ≠ m.id) ∧
    (∀ a, ∀ p ∈ mtFilterMovies s a, p.1.id ≠ m.id) ∧
    (∀ n rf groups, getCastMemberMovies s n rf = .ok groups →
      ∀ g ∈ groups, ∀ t ∈ g.2, t.1.id ≠ m.id) ∧
    (∀ ident st lim res, mtFindSimilarMovies s ident st lim = .ok res →
      ∀ p ∈ res.similar, p.1.id ≠ m.id) ∧
    (myStartsWith m.imdbId "tt" = true →
      (∀ m2 ∈ s.movies, m2.imdbId = m.imdbId → m2 = m) →
      getMovieDetails s m.imdbId = .error ("Movie not found: " ++ m.imdbId)) := by
  have key : ∀ p ∈ joinedRows s, p.1.id ≠ m.id := by
    intro p hp heq
    obtain ⟨_, hr, hid⟩ := mem_joinedRows.1 hp
    exact hnr p.2 hr (by rw [hid, heq])
  refine ⟨?_, ?_, ?_, ?_, ?_⟩
  · intro q lim p hp
    have h1 := List.take_subset _ _ hp
    exact key p (List.mem_filter.1 h1).1
  · intro a p hp
    have h1 := List.take_subset _ _ hp
    have h2 := (List.perm_insertionSort _ _).mem_iff.1 h1
    exact key p (List.mem_filter.1 h2).1
  · intro n rf groups hok g hg t ht
    unfold getCastMemberMovies at hok
    by_cases hrows : castMatchRows s n rf = []
    · rw [if_pos hrows] at hok
      cases hok
    · rw [if_neg hrows] at hok
      simp only [Except.ok.injEq] at hok
      subst hok
      obtain ⟨nm, _, hge⟩ := List.mem_map.1 hg
      cases hge
      have h1 := (List.mem_filter.1 ht).1
      have h2 := (List.mem_filter.1 h1).1
      exact fun hc => key (t.1, t.2.1) (mem_castJoined_proj h2) hc
  · intro ident st lim res hok p hp
    unfold mtFindSimilarMovies at hok
    cases hres : resolveRef s ident with
    | none => rw [hres] at hok; cases hok
    | some ref =>
        rw [hres] at hok
        simp only [Except.ok.injEq] at hok
        subst hok
        exact key p (mem_similarCandidates (mem_of_mem_dedupTake hp)).2
  · intro htt huni
    unfold getMovieDetails
    rw [if_pos htt]
    have hnil : (joinedRows s).filter (fun p => p.1.imdbId = m.imdbId) = [] := by
      rw [List.filter_eq_nil_iff]
      intro p hp
      simp only [decide_eq_true_eq]
      intro hid
      obtain ⟨hpm, hr, hmid⟩ := mem_joinedRows.1 hp
      have : p.1 = m := huni p.1 hpm hid
      exact key p hp (by rw [this])
    rw [hnil]
    rfl

/-- A store with one rated movie and one unrated movie. -/
def storeC10 : Store :=
  { movies := [mvA, { id := 3, imdbId := "tt099", title := "Ghost" }]
    ratings := [{ movieId := 1, rating := 9 }] }

/-- Witness for C10: the unrated movie is never returned and its exact-id
detail lookup errors. -/
theorem C10_unrated_invisible_witness :
    searchMovies storeC10 "Ghost" 10 = [] ∧
    getMovieDetails storeC10 "tt099" = .error ("Movie not found: " ++ "tt099") :=
  ⟨by decide,
   (C10_unrated_invisible storeC10
      { id := 3, imdbId := "tt099", title := "Ghost" }
      (by decide) (by decide)).2.2.2.2 (by decide) (by decide)⟩

end FilmRec
